import Mathlib

/-!
Verification of the SQS widget-building core of the
`aqts-capture-cloudwatch-dashboard` repository
(`cloudwatch_monitoring/sqs.py`).

The Python source is shallowly embedded: the external AWS collaborators
(the `list_queues` listing API, the `list_queue_tags` tag-lookup API and the
static `sqs_queues` title lookup imported from `.lookups`) are passed in as
function parameters, stateful loops become explicit state threading, and
Python exceptions (`KeyError`, which is a subclass of `LookupError`) become
an `Except` error channel.
-/

set_option autoImplicit false

namespace AqtsDashboard

/-! ### Python string primitives used by `sqs.py`

`sqs.py` uses three string operations: the substring test `a in b`, the
split `s.split('/')`, and `s.replace(old, '')` (which replaces every
occurrence).  They are embedded here over `List Char`, following Python's
semantics. -/

/-- Embedding of Python's `str.upper` (ASCII, which covers every string the
program handles): upper-case every character. -/
def pyUpper (s : String) : String :=
  ⟨s.data.map Char.toUpper⟩

/-- Does `pat` occur as a prefix-at-some-position of `l`?  This is the
substring test behind Python's `pat in s`. -/
def containsSub (pat : List Char) : List Char → Bool
  | [] => pat.isEmpty
  | a :: t => pat.isPrefixOf (a :: t) || containsSub pat t

/-- Embedding of Python's substring operator: `sub in s`. -/
def pyContains (s sub : String) : Bool :=
  containsSub sub.data s.data

/-- Embedding of Python's `s.split(c)` for a one-character separator: split
at every occurrence of `c`, keeping empty parts (so the result is never
empty). -/
def splitOnChar (c : Char) : List Char → List (List Char)
  | [] => [[]]
  | a :: rest =>
    let parts := splitOnChar c rest
    if a = c then [] :: parts
    else
      match parts with
      | [] => [[a]]
      | h :: t => (a :: h) :: t

/-- Fuelled worker for `replaceAll`; the fuel is the length of the scanned
list, which bounds the number of steps. -/
def replaceAllFuel (pat rep : List Char) : Nat → List Char → List Char
  | 0, s => s
  | _ + 1, [] => []
  | fuel + 1, a :: t =>
    if pat ≠ [] ∧ pat.isPrefixOf (a :: t) then
      rep ++ replaceAllFuel pat rep fuel ((a :: t).drop pat.length)
    else
      a :: replaceAllFuel pat rep fuel t

/-- Embedding of Python's `s.replace(pat, rep)`: replace every
(non-overlapping, leftmost-first) occurrence of `pat` by `rep`.  The guard
`pat ≠ []` never fires in this program (the pattern always starts with a
dash). -/
def replaceAll (pat rep s : List Char) : List Char :=
  replaceAllFuel pat rep s.length s

/-! ### Data model -/

/-- Errors the embedded Python code can raise.  `keyError k` models a Python
`KeyError(k)` — note that in Python `KeyError` is a subclass of
`LookupError`, so a failed dict lookup *is* a `LookupError`.  `outOfFuel` is
a modelling artifact: the `while True` pagination loop is given explicit
fuel, and exhausting it has no Python counterpart (the real loop would just
keep issuing requests). -/
inductive PyError where
  | keyError (key : String)
  | outOfFuel
  deriving DecidableEq

/-- A response of the `list_queues` AWS API (and also the accumulating
`response` dict in `get_all_sqs_queue_urls`): a dict that may carry a
`'QueueUrls'` list and a `'NextToken'` continuation token.  `none` models an
absent key.  Tokens are modelled as page indices. -/
structure ListResponse where
  queueUrls : Option (List String)
  nextToken : Option Nat
  deriving DecidableEq

/-- The mutable positioning cursor shared across widget-building calls
(instantiated in `dashboard.py` with `x, y = 0, 0`, `width, height = 3, 3`,
`max_width = 12`). -/
structure Positioning where
  x : Nat
  y : Nat
  width : Nat
  height : Nat
  maxWidth : Nat
  deriving DecidableEq

/-- Modelled from the spec: the `iterate_positioning` method of the
positioning cursor class is not among the provided sources (only its call
site in `create_sqs_widgets` is).  Per the spec: if `x + width < maxWidth`
then `x += width`, otherwise `x = 0` and `y += height`. -/
def Positioning.iterate_positioning (p : Positioning) : Positioning :=
  if p.x + p.width < p.maxWidth then { p with x := p.x + p.width }
  else { p with x := 0, y := p.y + p.height }

/-- One element of a metrics-query entry: either a plain string (metric
namespace, metric name, dimension name/value, or the `"."` repeat
shorthand) or a trailing options dict such as `{"stat": "Sum"}`. -/
inductive MetricItem where
  | str (s : String)
  | opts (l : List (String × String))
  deriving DecidableEq

/-- The `properties` dict of an SQS widget. -/
structure WidgetProperties where
  metrics : List (List MetricItem)
  view : String
  stacked : Bool
  region : String
  period : Nat
  title : String
  stat : String
  deriving DecidableEq

/-- An emitted widget descriptor. -/
structure Widget where
  type : String
  x : Nat
  y : Nat
  height : Nat
  width : Nat
  properties : WidgetProperties
  deriving DecidableEq

/-! ### Embedding of `get_all_sqs_queue_urls` -/

/-- Python `dict.update`: every key present in `ri` overwrites (or creates)
the corresponding key of `r`. -/
def dictUpdate (r ri : ListResponse) : ListResponse :=
  { queueUrls :=
      match ri.queueUrls with
      | some q => some q
      | none => r.queueUrls,
    nextToken :=
      match ri.nextToken with
      | some t => some t
      | none => r.nextToken }

/-- The `while True` pagination loop of `get_all_sqs_queue_urls`, with
explicit fuel.  On the first iteration (`next_token` is `none`) the page is
merged via `dict.update`; on later iterations
`response['QueueUrls'].extend(response_iterator['QueueUrls'])` runs, which
raises `KeyError('QueueUrls')` if either dict lacks the key.  The loop ends
when the page carries no `'NextToken'`. -/
def listQueuesLoop (list_queues : Option Nat → ListResponse) :
    Nat → ListResponse → Option Nat → Except PyError ListResponse
  | 0, _, _ => .error .outOfFuel
  | fuel + 1, response, next_token =>
    match next_token with
    | some tok =>
      let response_iterator := list_queues (some tok)
      match response.queueUrls, response_iterator.queueUrls with
      | some acc, some page =>
        let response' := { response with queueUrls := some (acc ++ page) }
        match response_iterator.nextToken with
        | some tok2 => listQueuesLoop list_queues fuel response' (some tok2)
        | none => .ok response'
      | _, _ => .error (.keyError "QueueUrls")
    | none =>
      let response_iterator := list_queues none
      let response' := dictUpdate response response_iterator
      match response_iterator.nextToken with
      | some tok2 => listQueuesLoop list_queues fuel response' (some tok2)
      | none => .ok response'

/-- Embedding of `get_all_sqs_queue_urls`: start from the empty dict
`response = {}` and `next_token = None` and run the pagination loop. -/
def get_all_sqs_queue_urls (list_queues : Option Nat → ListResponse)
    (fuel : Nat) : Except PyError ListResponse :=
  listQueuesLoop list_queues fuel { queueUrls := none, nextToken := none } none

/-- The page served for index `i` by a mocked listing capability holding
`pages`: the identifiers of page `i` (the key is absent when `i` is out of
range, as for a region with zero queues) and a continuation token to page
`i + 1` when more pages follow. -/
def pageResponse (pages : List (List String)) (i : Nat) : ListResponse :=
  { queueUrls := pages[i]?,
    nextToken := if i + 1 < pages.length then some (i + 1) else none }

/-- A mocked listing capability serving the identifiers of `pages` over
`pages.length` pages linked by continuation tokens: a call without a token
returns page 0, a call with token `i` returns page `i`. -/
def pagesApi (pages : List (List String)) : Option Nat → ListResponse
  | none => pageResponse pages 0
  | some i => pageResponse pages i

/-! ### Embedding of `is_iow_queue_filter` -/

/-- Embedding of `is_iow_queue_filter`.  `list_queue_tags` is the external
tag-lookup API: `none` models a response without a `'Tags'` key, `some tags`
a response whose `'Tags'` dict is the association list `tags`.  The first
component is the returned boolean; the second component is a ghost log of
the queue urls for which the `list_queue_tags` API was actually invoked
(used to state the short-circuit property).  The `region` parameter only
feeds the boto3 client construction in the source and is otherwise unused.
The function is total: no branch raises. -/
def is_iow_queue_filter (list_queue_tags : String → Option (List (String × String)))
    (queue_url deploy_stage region : String) : Bool × List String :=
  if pyContains queue_url (pyUpper deploy_stage) then
    let queue_tags := list_queue_tags queue_url
    match queue_tags with
    | some tags =>
      match tags.lookup "wma:organization" with
      | some v => (v == "IOW", [queue_url])
      | none => (false, [queue_url])
    | none => (false, [queue_url])
  else (false, [])

/-! ### Embedding of `create_sqs_widgets` -/

/-- Derivation of the queue name: `queue_url.split('/')[-1]` (the part
after the last separator; Python's `[-1]` on a split result never fails
because `split` never returns an empty list). -/
def queue_name_of (queue_url : String) : String :=
  ⟨(splitOnChar '/' queue_url.data).getLastD []⟩

/-- Derivation of the tier-agnostic queue name:
`queue_name.replace("-" + deploy_stage, '')` — every occurrence of the
dash-prefixed deploy stage is removed. -/
def tier_agnostic_name (queue_name deploy_stage : String) : String :=
  ⟨replaceAll ("-" ++ deploy_stage).data [] queue_name.data⟩

/-- The six-entry metrics-query block of an SQS widget, exactly as written
in the source: only the first entry names the `QueueName` dimension value
explicitly, the later entries use the `"."` repeat shorthand; `Received`
and `Sent` carry a `{"stat": "Sum"}` override, `Deleted` and `Delayed`
carry no options dict. -/
def sqs_widget_metrics (queue_name : String) : List (List MetricItem) :=
  [[.str "AWS/SQS", .str "ApproximateNumberOfMessagesVisible", .str "QueueName", .str queue_name],
   [.str ".", .str "ApproximateAgeOfOldestMessage", .str ".", .str ".", .opts [("yAxis", "right")]],
   [.str ".", .str "NumberOfMessagesReceived", .str ".", .str ".", .opts [("stat", "Sum")]],
   [.str ".", .str "NumberOfMessagesSent", .str ".", .str ".", .opts [("stat", "Sum")]],
   [.str ".", .str "NumberOfMessagesDeleted", .str ".", .str "."],
   [.str ".", .str "ApproximateNumberOfMessagesDelayed", .str ".", .str "."]]

/-- The body of the `for queue_url in ...` loop of `create_sqs_widgets`,
threading the positioning cursor and the accumulated widget list.  For an
eligible queue: derive the names, look up the title in `sqs_queues` (a
missing entry is a Python `KeyError`, i.e. a `LookupError`, and aborts the
whole call), force `positioning.width = 12`, build the widget from the
cursor's current fields, append it, and advance the cursor. -/
def sqs_widgets_loop (sqs_queues : String → Option String)
    (list_queue_tags : String → Option (List (String × String)))
    (region deploy_stage : String) :
    List String → Positioning → List Widget → Except PyError (List Widget × Positioning)
  | [], positioning, sqs_widgets => .ok (sqs_widgets, positioning)
  | queue_url :: rest, positioning, sqs_widgets =>
    if (is_iow_queue_filter list_queue_tags queue_url deploy_stage region).1 then
      let queue_name := queue_name_of queue_url
      let tier_agnostic_queue_name := tier_agnostic_name queue_name deploy_stage
      match sqs_queues tier_agnostic_queue_name with
      | none => .error (.keyError tier_agnostic_queue_name)
      | some queue_title =>
        let positioning' : Positioning := { positioning with width := 12 }
        let queue_widget : Widget :=
          { type := "metric",
            x := positioning'.x,
            y := positioning'.y,
            height := positioning'.height + 3,
            width := positioning'.width,
            properties :=
              { metrics := sqs_widget_metrics queue_name,
                view := "timeSeries",
                stacked := false,
                region := region,
                period := 60,
                title := queue_title,
                stat := "Average" } }
        sqs_widgets_loop sqs_queues list_queue_tags region deploy_stage rest
          positioning'.iterate_positioning (sqs_widgets ++ [queue_widget])
    else
      sqs_widgets_loop sqs_queues list_queue_tags region deploy_stage rest
        positioning sqs_widgets

/-- Embedding of `create_sqs_widgets`.  The external collaborators become
parameters: `sqs_queues` is the static title lookup (imported from
`.lookups` in the source; `sqs_queues name` returns the `'title'` field of
the entry, `none` when the name has no entry), `list_queue_tags` the
tag-lookup API and `list_queues` the listing API.  The function first
fetches all queue urls, then accesses `['QueueUrls']` on the result (a
missing key raises `KeyError`), then runs the widget-building loop. -/
def create_sqs_widgets (sqs_queues : String → Option String)
    (list_queue_tags : String → Option (List (String × String)))
    (list_queues : Option Nat → ListResponse) (fuel : Nat)
    (region deploy_stage : String) (positioning : Positioning) :
    Except PyError (List Widget × Positioning) :=
  match get_all_sqs_queue_urls list_queues fuel with
  | .error e => .error e
  | .ok all_sqs_queue_urls_response =>
    match all_sqs_queue_urls_response.queueUrls with
    | none => .error (.keyError "QueueUrls")
    | some queue_urls =>
      sqs_widgets_loop sqs_queues list_queue_tags region deploy_stage
        queue_urls positioning []

/-- Follows the spec's words (§3 data model, claim C5): `tierAgnosticName`
is `name` with the deploy-tier SUFFIX dash-deployStage removed, i.e. the
trailing `"-" ++ deploy_stage` is dropped when present and nothing else
changes.  This definition exists only to be compared with the source's
`tier_agnostic_name`, which removes every occurrence. -/
def specSuffixRemoved (queue_name deploy_stage : String) : String :=
  let suf := ("-" ++ deploy_stage).data
  if suf.isSuffixOf queue_name.data then
    ⟨queue_name.data.take (queue_name.data.length - suf.length)⟩
  else queue_name

/-! ### Concrete fixtures used by witnesses and counterexamples -/

/-- A tag-lookup stub for witnesses: every queue is tagged as an IOW
asset. -/
def demoTags (_queue_url : String) : Option (List (String × String)) :=
  some [("wma:organization", "IOW")]

/-- A one-entry title lookup for witnesses, shaped like the static
`sqs_queues` mapping of `.lookups`. -/
def demoTitles (tier_agnostic_queue_name : String) : Option String :=
  if tier_agnostic_queue_name = "aqts-capture-error-queue" then some "Error Queue"
  else none

/-! ### Helper lemmas on the string primitives -/

/-- `List.isPrefixOf` characterised by an explicit append decomposition. -/
theorem isPrefixOf_iff_exists (p l : List Char) :
    p.isPrefixOf l = true ↔ ∃ t, l = p ++ t := by
  induction p generalizing l with
  | nil => simp [List.isPrefixOf]
  | cons a p ih =>
    cases l with
    | nil => simp [List.isPrefixOf]
    | cons b t =>
      simp only [List.isPrefixOf, Bool.and_eq_true, beq_iff_eq, ih, List.cons_append,
        List.cons.injEq]
      constructor
      · rintro ⟨rfl, u, rfl⟩
        exact ⟨u, rfl, rfl⟩
      · rintro ⟨u, rfl, rfl⟩
        exact ⟨rfl, u, rfl⟩

/-- The substring test `containsSub` holds exactly when the pattern occurs
somewhere inside the list, i.e. the list splits as
`before ++ pattern ++ after`. -/
theorem containsSub_iff_exists (pat l : List Char) :
    containsSub pat l = true ↔ ∃ s t, l = s ++ pat ++ t := by
  induction l with
  | nil =>
    simp only [containsSub, List.isEmpty_iff]
    constructor
    · rintro rfl
      exact ⟨[], [], rfl⟩
    · rintro ⟨s, t, h⟩
      rcases List.append_eq_nil.mp h.symm with ⟨h1, h2⟩
      exact (List.append_eq_nil.mp h1).2
  | cons a l ih =>
    simp only [containsSub, Bool.or_eq_true, ih, isPrefixOf_iff_exists]
    constructor
    · rintro (⟨t, ht⟩ | ⟨s, t, h⟩)
      · exact ⟨[], t, by simpa using ht⟩
      · exact ⟨a :: s, t, by simp [h]⟩
    · rintro ⟨s, t, h⟩
      cases s with
      | nil => exact Or.inl ⟨t, by simpa using h⟩
      | cons b s =>
        right
        refine ⟨s, t, ?_⟩
        have := (List.cons.injEq a l b (s ++ pat ++ t)).mp (by simpa using h)
        exact this.2

/-- A split result is never empty (so Python's `[-1]` access never fails). -/
theorem splitOnChar_ne_nil (c : Char) (l : List Char) : splitOnChar c l ≠ [] := by
  cases l with
  | nil => simp [splitOnChar]
  | cons a rest =>
    simp only [splitOnChar]
    by_cases h : a = c
    · simp [h]
    · simp only [if_neg h]
      cases splitOnChar c rest with
      | nil => simp
      | cons h t => simp

/-- Splitting a list that does not contain the separator yields the whole
list as the only part. -/
theorem splitOnChar_not_mem (c : Char) (l : List Char) (h : c ∉ l) :
    splitOnChar c l = [l] := by
  induction l with
  | nil => rfl
  | cons a rest ih =>
    have ha : a ≠ c := fun hac => h (hac ▸ List.mem_cons_self a rest)
    have hr : c ∉ rest := fun hc => h (List.mem_cons_of_mem a hc)
    simp only [splitOnChar, if_neg ha, ih hr]

/-- When the separator occurs, the split has at least two parts. -/
theorem splitOnChar_mem_two_parts (c : Char) (l : List Char) (h : c ∈ l) :
    ∃ p t, splitOnChar c l = p :: t ∧ t ≠ [] := by
  induction l with
  | nil => cases h
  | cons a rest ih =>
    by_cases hac : a = c
    · subst hac
      exact ⟨[], splitOnChar a rest, by simp [splitOnChar], splitOnChar_ne_nil a rest⟩
    · have hr : c ∈ rest := by
        cases List.mem_cons.mp h with
        | inl h1 => exact absurd h1.symm hac
        | inr h2 => exact h2
      obtain ⟨p, t, hsplit, ht⟩ := ih hr
      exact ⟨a :: p, t, by simp [splitOnChar, if_neg hac, hsplit], ht⟩

/-- `getLastD` of a non-empty list ignores the default. -/
theorem getLastD_of_ne_nil {α : Type} (l : List α) (h : l ≠ []) (d₁ d₂ : α) :
    l.getLastD d₁ = l.getLastD d₂ := by
  cases l with
  | nil => exact absurd rfl h
  | cons a t => rw [List.getLastD_cons, List.getLastD_cons]

/-- The last part of a split: when the separator occurs in `l`, the list
decomposes as `pre ++ c :: lastPart`, and the last part is separator-free.
This is exactly what "the substring after the final separator" means. -/
theorem splitOnChar_getLastD (c : Char) (l : List Char) (h : c ∈ l) :
    ∃ pre, l = pre ++ c :: (splitOnChar c l).getLastD [] ∧
      c ∉ (splitOnChar c l).getLastD [] := by
  induction l with
  | nil => cases h
  | cons a rest ih =>
    by_cases hac : a = c
    · subst hac
      have hrw : splitOnChar a (a :: rest) = [] :: splitOnChar a rest := by
        simp [splitOnChar]
      by_cases hr : a ∈ rest
      · obtain ⟨pre, heq, hnm⟩ := ih hr
        have hlast : (splitOnChar a (a :: rest)).getLastD [] =
            (splitOnChar a rest).getLastD [] := by
          rw [hrw, List.getLastD_cons]
        refine ⟨a :: pre, ?_, ?_⟩
        · rw [hlast, List.cons_append]
          exact congrArg (a :: ·) heq
        · rw [hlast]; exact hnm
      · have hsplit : splitOnChar a rest = [rest] := splitOnChar_not_mem a rest hr
        have hlast : (splitOnChar a (a :: rest)).getLastD [] = rest := by
          rw [hrw, hsplit, List.getLastD_cons]
          rfl
        exact ⟨[], by rw [hlast]; rfl, by rw [hlast]; exact hr⟩
    · have hr : c ∈ rest := by
        cases List.mem_cons.mp h with
        | inl h1 => exact absurd h1.symm hac
        | inr h2 => exact h2
      obtain ⟨p, t, hsplit, ht⟩ := splitOnChar_mem_two_parts c rest hr
      have hrw : splitOnChar c (a :: rest) = (a :: p) :: t := by
        simp [splitOnChar, if_neg hac, hsplit]
      have hlast : (splitOnChar c (a :: rest)).getLastD [] =
          (splitOnChar c rest).getLastD [] := by
        rw [hrw, hsplit, List.getLastD_cons, List.getLastD_cons]
        exact getLastD_of_ne_nil t ht _ _
      obtain ⟨pre, heq, hnm⟩ := ih hr
      refine ⟨a :: pre, ?_, ?_⟩
      · rw [hlast, List.cons_append]
        exact congrArg (a :: ·) heq
      · rw [hlast]; exact hnm

/-! ### Pagination: the loop of `get_all_sqs_queue_urls` over a mocked
listing capability -/

/-- Invariant of the pagination loop: entered with an accumulated list and
a valid continuation token `i`, it returns the accumulator followed by the
concatenation of page `i` and all later pages, page by page in order. -/
theorem listQueuesLoop_pagesApi (pages : List (List String)) :
    ∀ fuel i acc tk, 1 ≤ i → i < pages.length → pages.length - i ≤ fuel →
      listQueuesLoop (pagesApi pages) fuel ⟨some acc, tk⟩ (some i) =
        .ok ⟨some (acc ++ (pages.drop i).flatten), tk⟩ := by
  intro fuel
  induction fuel with
  | zero =>
    intro i acc tk _ h2 h3
    omega
  | succ fuel ih =>
    intro i acc tk h1 h2 h3
    have hdrop := List.drop_eq_getElem_cons (l := pages) (n := i) h2
    by_cases hlt : i + 1 < pages.length
    · have hstep : listQueuesLoop (pagesApi pages) (fuel + 1) ⟨some acc, tk⟩ (some i) =
          listQueuesLoop (pagesApi pages) fuel ⟨some (acc ++ pages[i]), tk⟩ (some (i + 1)) := by
        simp [listQueuesLoop, pagesApi, pageResponse, List.getElem?_eq_getElem h2, hlt]
      rw [hstep, ih (i + 1) (acc ++ pages[i]) tk (by omega) hlt (by omega), hdrop]
      simp only [List.flatten_cons, List.append_assoc]
    · have hstep : listQueuesLoop (pagesApi pages) (fuel + 1) ⟨some acc, tk⟩ (some i) =
          .ok ⟨some (acc ++ pages[i]), tk⟩ := by
        simp [listQueuesLoop, pagesApi, pageResponse, List.getElem?_eq_getElem h2, hlt]
      rw [hstep, hdrop, List.drop_eq_nil_of_le (by omega : pages.length ≤ i + 1)]
      simp

/-- Running `get_all_sqs_queue_urls` against a mocked listing capability
serving `pages` returns the concatenation of all pages (page-then-in-page
order).  The returned dict also still holds the continuation token written
by the first page's `dict.update`, which later iterations never overwrite
(they only extend `'QueueUrls'`), faithfully to the source. -/
theorem get_all_pagesApi (pages : List (List String)) (fuel : Nat)
    (h0 : 0 < pages.length) (hf : pages.length ≤ fuel) :
    get_all_sqs_queue_urls (pagesApi pages) fuel =
      .ok ⟨some pages.flatten, if 1 < pages.length then some 1 else none⟩ := by
  obtain ⟨f, rfl⟩ : ∃ f, fuel = f + 1 := ⟨fuel - 1, by omega⟩
  cases pages with
  | nil => simp at h0
  | cons p0 rest =>
    cases rest with
    | nil =>
      simp [get_all_sqs_queue_urls, listQueuesLoop, pagesApi, pageResponse, dictUpdate]
    | cons p1 rs =>
      have hlen : 0 + 1 < (p0 :: p1 :: rs).length := by
        simp [List.length_cons]
      have hn : pagesApi (p0 :: p1 :: rs) none = ⟨some p0, some 1⟩ := by
        simp [pagesApi, pageResponse, hlen]
      have hstep : get_all_sqs_queue_urls (pagesApi (p0 :: p1 :: rs)) (f + 1) =
          listQueuesLoop (pagesApi (p0 :: p1 :: rs)) f ⟨some p0, some 1⟩ (some 1) := by
        simp [get_all_sqs_queue_urls, listQueuesLoop, hn, dictUpdate]
      have hf' : (p0 :: p1 :: rs).length - 1 ≤ f := by
        simp only [List.length_cons] at hf ⊢
        omega
      rw [hstep, listQueuesLoop_pagesApi (p0 :: p1 :: rs) f 1 p0 (some 1) le_rfl
        (by simp [List.length_cons]) hf']
      have hone : 1 < (p0 :: p1 :: rs).length := by
        simp [List.length_cons]
      rw [if_pos hone]
      simp

/-! ### The widget-building loop -/

/-- One step of the widget loop on an eligible queue whose tier-agnostic
name has a title: force width 12, emit the widget built from the cursor's
current fields, advance the cursor. -/
theorem sqs_widgets_loop_cons_eligible (sqs_queues : String → Option String)
    (list_queue_tags : String → Option (List (String × String)))
    (region deploy_stage queue_url queue_title : String) (rest : List String)
    (p : Positioning) (acc : List Widget)
    (helig : (is_iow_queue_filter list_queue_tags queue_url deploy_stage region).1 = true)
    (htitle : sqs_queues (tier_agnostic_name (queue_name_of queue_url) deploy_stage) =
      some queue_title) :
    sqs_widgets_loop sqs_queues list_queue_tags region deploy_stage (queue_url :: rest) p acc =
      sqs_widgets_loop sqs_queues list_queue_tags region deploy_stage rest
        (Positioning.iterate_positioning { p with width := 12 })
        (acc ++
          [{ type := "metric", x := p.x, y := p.y, height := p.height + 3, width := 12,
             properties :=
               { metrics := sqs_widget_metrics (queue_name_of queue_url),
                 view := "timeSeries", stacked := false, region := region, period := 60,
                 title := queue_title, stat := "Average" } }]) := by
  simp only [sqs_widgets_loop, helig, if_true, htitle]

/-- Processing a single-page listing holding one eligible, titled queue url
produces exactly one widget, built from the current cursor, and advances
the cursor once (with its width forced to 12 beforehand). -/
theorem create_sqs_widgets_single (sqs_queues : String → Option String)
    (list_queue_tags : String → Option (List (String × String)))
    (region deploy_stage queue_url queue_title : String)
    (p : Positioning) (fuel : Nat) (hfuel : 1 ≤ fuel)
    (helig : (is_iow_queue_filter list_queue_tags queue_url deploy_stage region).1 = true)
    (htitle : sqs_queues (tier_agnostic_name (queue_name_of queue_url) deploy_stage) =
      some queue_title) :
    create_sqs_widgets sqs_queues list_queue_tags (pagesApi [[queue_url]]) fuel
        region deploy_stage p =
      .ok
        ([{ type := "metric", x := p.x, y := p.y, height := p.height + 3, width := 12,
            properties :=
              { metrics := sqs_widget_metrics (queue_name_of queue_url),
                view := "timeSeries", stacked := false, region := region, period := 60,
                title := queue_title, stat := "Average" } }],
          Positioning.iterate_positioning { p with width := 12 }) := by
  have hget := get_all_pagesApi [[queue_url]] fuel (by simp) (by simpa using hfuel)
  simp only [List.flatten_cons, List.flatten_nil, List.append_nil, List.length_cons,
    List.length_nil] at hget
  rw [if_neg (by omega)] at hget
  simp only [create_sqs_widgets, hget]
  rw [sqs_widgets_loop_cons_eligible sqs_queues list_queue_tags region deploy_stage
    queue_url queue_title [] p [] helig htitle]
  simp [sqs_widgets_loop]

/-! ### Claim theorems -/

/-- C1: for a listing capability serving identifiers spread over pages
linked by continuation tokens, `get_all_sqs_queue_urls` returns exactly
those identifiers — the concatenation of the pages in page-then-in-page
order, so none is dropped or duplicated across page boundaries. -/
theorem get_all_sqs_queue_urls_complete (pages : List (List String)) (fuel : Nat)
    (h0 : 0 < pages.length) (hf : pages.length ≤ fuel) :
    ∃ r, get_all_sqs_queue_urls (pagesApi pages) fuel = .ok r ∧
      r.queueUrls = some pages.flatten :=
  ⟨_, get_all_pagesApi pages fuel h0 hf, rfl⟩

/-- Witness for C1: three identifiers over two token-linked pages come back
as exactly those three identifiers in page-then-in-page order. -/
theorem get_all_sqs_queue_urls_complete_witness :
    0 < ([["a", "b"], ["c"]] : List (List String)).length ∧
      ([["a", "b"], ["c"]] : List (List String)).length ≤ 2 ∧
      ∃ r, get_all_sqs_queue_urls (pagesApi [["a", "b"], ["c"]]) 2 = .ok r ∧
        r.queueUrls = some ([["a", "b"], ["c"]] : List (List String)).flatten :=
  ⟨by decide, by decide,
    get_all_sqs_queue_urls_complete [["a", "b"], ["c"]] 2 (by decide) (by decide)⟩

/-- C2: `is_iow_queue_filter` returns true iff the upper-cased deploy stage
occurs as a substring of the queue url AND the fetched tag set has key
`"wma:organization"` mapped to exactly `"IOW"`.  An absent tag collection
(`none`), an absent key, or a different value all make the bind on the
right-hand side `≠ some "IOW"`, hence the result false — and the function
is total, so no error is raised in any of these cases. -/
theorem is_iow_queue_filter_iff (list_queue_tags : String → Option (List (String × String)))
    (queue_url deploy_stage region : String) :
    (is_iow_queue_filter list_queue_tags queue_url deploy_stage region).1 = true ↔
      ((∃ s t, queue_url.data = s ++ (pyUpper deploy_stage).data ++ t) ∧
        (list_queue_tags queue_url).bind (fun tags => tags.lookup "wma:organization") =
          some "IOW") := by
  rw [← containsSub_iff_exists]
  simp only [is_iow_queue_filter, pyContains]
  cases hc : containsSub (pyUpper deploy_stage).data queue_url.data with
  | false => simp
  | true =>
    simp only [if_true, true_and]
    cases htag : list_queue_tags queue_url with
    | none => simp
    | some tags =>
      cases hlk : tags.lookup "wma:organization" with
      | none => simp [hlk]
      | some v => simp [hlk, beq_iff_eq]

/-- C6: one `iterate_positioning` call advances `x` by `width` when
`x + width < maxWidth` and otherwise wraps to a new row (`x = 0`,
`y += height`); in particular the two cursor examples of the claim. -/
theorem iterate_positioning_rule :
    (∀ p : Positioning,
        Positioning.iterate_positioning p =
          if p.x + p.width < p.maxWidth then { p with x := p.x + p.width }
          else { p with x := 0, y := p.y + p.height }) ∧
      Positioning.iterate_positioning ⟨0, 0, 12, 3, 12⟩ = ⟨0, 3, 12, 3, 12⟩ ∧
      Positioning.iterate_positioning ⟨0, 0, 3, 3, 12⟩ = ⟨3, 0, 3, 3, 12⟩ :=
  ⟨fun _ => rfl, by decide, by decide⟩

/-- C8: when the upper-cased deploy stage does not occur in the queue url,
`is_iow_queue_filter` performs no tag-lookup call at all — its ghost log of
`list_queue_tags` invocations is empty. -/
theorem is_iow_queue_filter_short_circuit
    (list_queue_tags : String → Option (List (String × String)))
    (queue_url deploy_stage region : String)
    (h : ¬ ∃ s t, queue_url.data = s ++ (pyUpper deploy_stage).data ++ t) :
    (is_iow_queue_filter list_queue_tags queue_url deploy_stage region).2 = [] := by
  have hc : containsSub (pyUpper deploy_stage).data queue_url.data = false := by
    cases hcc : containsSub (pyUpper deploy_stage).data queue_url.data with
    | false => rfl
    | true => exact absurd ((containsSub_iff_exists _ _).mp hcc) h
  simp [is_iow_queue_filter, pyContains, hc]

/-- Witness for C8: `"TEST"` does not occur in a DEV queue url, and the
filter then issues no tag-lookup call. -/
theorem is_iow_queue_filter_short_circuit_witness :
    (¬ ∃ s t, ("https://h/aqts-x-DEV" : String).data =
        s ++ (pyUpper "test").data ++ t) ∧
      (is_iow_queue_filter (fun _ => some [("wma:organization", "IOW")])
        "https://h/aqts-x-DEV" "test" "us-west-2").2 = [] :=
  have h : ¬ ∃ s t, ("https://h/aqts-x-DEV" : String).data =
      s ++ (pyUpper "test").data ++ t :=
    fun hex => absurd ((containsSub_iff_exists _ _).mpr hex) (by decide)
  ⟨h, is_iow_queue_filter_short_circuit (fun _ => some [("wma:organization", "IOW")])
    "https://h/aqts-x-DEV" "test" "us-west-2" h⟩

/-- C3: for an eligible identifier, the emitted descriptor has width 12
(the cursor's width is forced to 12 before the cursor fields are read),
height `cursor.height + 3`, the cursor's current `x`/`y`, view
`"timeSeries"`, stacked `false`, period 60, statistic `"Average"`, the
looked-up title, and the six-entry metrics list with the resource name in
its dimension-value slot; the cursor is then advanced with width 12. -/
theorem create_sqs_widgets_descriptor_shape (sqs_queues : String → Option String)
    (list_queue_tags : String → Option (List (String × String)))
    (region deploy_stage queue_url queue_title : String)
    (p : Positioning) (fuel : Nat) (hfuel : 1 ≤ fuel)
    (helig : (is_iow_queue_filter list_queue_tags queue_url deploy_stage region).1 = true)
    (htitle : sqs_queues (tier_agnostic_name (queue_name_of queue_url) deploy_stage) =
      some queue_title) :
    create_sqs_widgets sqs_queues list_queue_tags (pagesApi [[queue_url]]) fuel
        region deploy_stage p =
      .ok
        ([{ type := "metric", x := p.x, y := p.y, height := p.height + 3, width := 12,
            properties :=
              { metrics := sqs_widget_metrics (queue_name_of queue_url),
                view := "timeSeries", stacked := false, region := region, period := 60,
                title := queue_title, stat := "Average" } }],
          Positioning.iterate_positioning { p with width := 12 }) :=
  create_sqs_widgets_single sqs_queues list_queue_tags region deploy_stage
    queue_url queue_title p fuel hfuel helig htitle

/-- Witness for C3 at the claim's example data. -/
theorem create_sqs_widgets_descriptor_shape_witness :
    1 ≤ 1 ∧
      (is_iow_queue_filter demoTags
        "https://host/579777464052/aqts-capture-error-queue-TEST" "TEST" "us-west-2").1 =
        true ∧
      demoTitles (tier_agnostic_name
          (queue_name_of "https://host/579777464052/aqts-capture-error-queue-TEST") "TEST") =
        some "Error Queue" ∧
      create_sqs_widgets demoTitles demoTags
          (pagesApi [["https://host/579777464052/aqts-capture-error-queue-TEST"]]) 1
          "us-west-2" "TEST" ⟨0, 0, 3, 3, 12⟩ =
        .ok
          ([{ type := "metric", x := 0, y := 0, height := 6, width := 12,
              properties :=
                { metrics := sqs_widget_metrics "aqts-capture-error-queue-TEST",
                  view := "timeSeries", stacked := false, region := "us-west-2",
                  period := 60, title := "Error Queue", stat := "Average" } }],
            ⟨0, 3, 12, 3, 12⟩) :=
  ⟨by decide, by decide, by decide,
    create_sqs_widgets_descriptor_shape demoTitles demoTags "us-west-2" "TEST"
      "https://host/579777464052/aqts-capture-error-queue-TEST" "Error Queue"
      ⟨0, 0, 3, 3, 12⟩ 1 (by decide) (by decide) (by decide)⟩

/-- C4 counterexample: in the metrics block actually built, the
received/sent entries carry the `{"stat": "Sum"}` override but the
deleted-count entry (index 4) carries no options dict at all — so the
deleted-message count is NOT aggregated as a sum, contrary to the claim
(it inherits the widget-level `"Average"` statistic). -/
theorem sqs_widget_metrics_deleted_not_sum :
    (sqs_widget_metrics "aqts-capture-error-queue-TEST").getD 4 [] =
      [MetricItem.str ".", MetricItem.str "NumberOfMessagesDeleted",
        MetricItem.str ".", MetricItem.str "."] ∧
      MetricItem.opts [("stat", "Sum")] ∉
        (sqs_widget_metrics "aqts-capture-error-queue-TEST").getD 4 [] ∧
      MetricItem.opts [("stat", "Sum")] ∈
        (sqs_widget_metrics "aqts-capture-error-queue-TEST").getD 2 [] :=
  ⟨rfl, by decide, by decide⟩

/-- C4 (amended): the metrics block consists of six fixed entries —
visible-message count (with the resource name as dimension value),
oldest-message age on the right axis, received and sent counts as sums,
and deleted and delayed counts with no per-entry statistic override. -/
theorem create_sqs_widgets_metrics_block (sqs_queues : String → Option String)
    (list_queue_tags : String → Option (List (String × String)))
    (region deploy_stage queue_url queue_title : String)
    (p : Positioning) (fuel : Nat) (hfuel : 1 ≤ fuel)
    (helig : (is_iow_queue_filter list_queue_tags queue_url deploy_stage region).1 = true)
    (htitle : sqs_queues (tier_agnostic_name (queue_name_of queue_url) deploy_stage) =
      some queue_title) :
    ∃ w pos,
      create_sqs_widgets sqs_queues list_queue_tags (pagesApi [[queue_url]]) fuel
          region deploy_stage p = .ok ([w], pos) ∧
        w.properties.metrics =
          [[.str "AWS/SQS", .str "ApproximateNumberOfMessagesVisible", .str "QueueName",
              .str (queue_name_of queue_url)],
            [.str ".", .str "ApproximateAgeOfOldestMessage", .str ".", .str ".",
              .opts [("yAxis", "right")]],
            [.str ".", .str "NumberOfMessagesReceived", .str ".", .str ".",
              .opts [("stat", "Sum")]],
            [.str ".", .str "NumberOfMessagesSent", .str ".", .str ".",
              .opts [("stat", "Sum")]],
            [.str ".", .str "NumberOfMessagesDeleted", .str ".", .str "."],
            [.str ".", .str "ApproximateNumberOfMessagesDelayed", .str ".", .str "."]] :=
  ⟨_, _,
    create_sqs_widgets_single sqs_queues list_queue_tags region deploy_stage
      queue_url queue_title p fuel hfuel helig htitle,
    rfl⟩

/-- Witness for C4 (amended). -/
theorem create_sqs_widgets_metrics_block_witness :
    1 ≤ 1 ∧
      (is_iow_queue_filter demoTags "https://h/aqts-capture-error-queue-TEST"
        "TEST" "us-west-2").1 = true ∧
      demoTitles (tier_agnostic_name
          (queue_name_of "https://h/aqts-capture-error-queue-TEST") "TEST") =
        some "Error Queue" ∧
      ∃ w pos,
        create_sqs_widgets demoTitles demoTags
            (pagesApi [["https://h/aqts-capture-error-queue-TEST"]]) 1
            "us-west-2" "TEST" ⟨0, 0, 3, 3, 12⟩ = .ok ([w], pos) ∧
          w.properties.metrics =
            [[.str "AWS/SQS", .str "ApproximateNumberOfMessagesVisible", .str "QueueName",
                .str (queue_name_of "https://h/aqts-capture-error-queue-TEST")],
              [.str ".", .str "ApproximateAgeOfOldestMessage", .str ".", .str ".",
                .opts [("yAxis", "right")]],
              [.str ".", .str "NumberOfMessagesReceived", .str ".", .str ".",
                .opts [("stat", "Sum")]],
              [.str ".", .str "NumberOfMessagesSent", .str ".", .str ".",
                .opts [("stat", "Sum")]],
              [.str ".", .str "NumberOfMessagesDeleted", .str ".", .str "."],
              [.str ".", .str "ApproximateNumberOfMessagesDelayed", .str ".", .str "."]] :=
  ⟨by decide, by decide, by decide,
    create_sqs_widgets_metrics_block demoTitles demoTags "us-west-2" "TEST"
      "https://h/aqts-capture-error-queue-TEST" "Error Queue"
      ⟨0, 0, 3, 3, 12⟩ 1 (by decide) (by decide) (by decide)⟩

/-- C5 counterexample: the source removes EVERY occurrence of
`"-" ++ deploy_stage`, not only a trailing suffix.  For the identifier
`"h/aqts-TEST-thing-TEST"` with deploy stage `"TEST"`, the derived name is
`"aqts-TEST-thing-TEST"` and the code produces `"aqts-thing"`, whereas
removing only the deploy-tier suffix (the claim's wording, captured by
`specSuffixRemoved`) would give `"aqts-TEST-thing"`. -/
theorem tier_agnostic_name_not_suffix_removal :
    queue_name_of "h/aqts-TEST-thing-TEST" = "aqts-TEST-thing-TEST" ∧
      tier_agnostic_name "aqts-TEST-thing-TEST" "TEST" = "aqts-thing" ∧
      specSuffixRemoved "aqts-TEST-thing-TEST" "TEST" = "aqts-TEST-thing" ∧
      tier_agnostic_name "aqts-TEST-thing-TEST" "TEST" ≠
        specSuffixRemoved "aqts-TEST-thing-TEST" "TEST" :=
  ⟨rfl, rfl, rfl, by decide⟩

/-- C5 (amended): for an identifier containing a path separator, `name` is
the substring after the final `'/'` (the identifier decomposes as
`pre ++ '/' :: name` with a separator-free `name`), and `tierAgnosticName`
is `name` with every occurrence of `"-" ++ deployStage` removed — on the
claim's example, where the stage occurs only as a suffix, this yields
exactly the suffix-free name. -/
theorem queue_name_derivation (queue_url : String) (h : '/' ∈ queue_url.data) :
    (∃ pre, queue_url.data = pre ++ '/' :: (queue_name_of queue_url).data ∧
        '/' ∉ (queue_name_of queue_url).data) ∧
      queue_name_of "https://host/579777464052/aqts-capture-error-queue-TEST" =
        "aqts-capture-error-queue-TEST" ∧
      tier_agnostic_name "aqts-capture-error-queue-TEST" "TEST" =
        "aqts-capture-error-queue" :=
  ⟨splitOnChar_getLastD '/' queue_url.data h, rfl, rfl⟩

/-- Witness for C5 (amended) at the claim's example identifier. -/
theorem queue_name_derivation_witness :
    '/' ∈ ("https://host/579777464052/aqts-capture-error-queue-TEST" : String).data ∧
      ((∃ pre,
          ("https://host/579777464052/aqts-capture-error-queue-TEST" : String).data =
            pre ++ '/' ::
              (queue_name_of "https://host/579777464052/aqts-capture-error-queue-TEST").data ∧
            '/' ∉
              (queue_name_of "https://host/579777464052/aqts-capture-error-queue-TEST").data) ∧
        queue_name_of "https://host/579777464052/aqts-capture-error-queue-TEST" =
          "aqts-capture-error-queue-TEST" ∧
        tier_agnostic_name "aqts-capture-error-queue-TEST" "TEST" =
          "aqts-capture-error-queue") :=
  ⟨by decide,
    queue_name_derivation "https://host/579777464052/aqts-capture-error-queue-TEST"
      (by decide)⟩

/-- C7: an eligible identifier whose tier-agnostic name has no entry in the
title lookup makes the whole call fail with `KeyError` (Python's
`LookupError`) naming that tier-agnostic name: the failure propagates
immediately, no widget is emitted, and the remaining identifiers are not
processed. -/
theorem create_sqs_widgets_missing_title (sqs_queues : String → Option String)
    (list_queue_tags : String → Option (List (String × String)))
    (region deploy_stage queue_url : String) (rest : List String)
    (p : Positioning) (fuel : Nat) (hfuel : 1 ≤ fuel)
    (helig : (is_iow_queue_filter list_queue_tags queue_url deploy_stage region).1 = true)
    (hmiss : sqs_queues (tier_agnostic_name (queue_name_of queue_url) deploy_stage) = none) :
    create_sqs_widgets sqs_queues list_queue_tags (pagesApi [queue_url :: rest]) fuel
        region deploy_stage p =
      .error (.keyError (tier_agnostic_name (queue_name_of queue_url) deploy_stage)) := by
  have hget := get_all_pagesApi [queue_url :: rest] fuel (by simp) (by simpa using hfuel)
  simp only [List.flatten_cons, List.flatten_nil, List.append_nil, List.length_cons,
    List.length_nil] at hget
  rw [if_neg (by omega)] at hget
  simp only [create_sqs_widgets, hget]
  simp [sqs_widgets_loop, helig, hmiss]

/-- Witness for C7: an eligible queue (`"aqts-x-TEST"`) against an empty
title lookup fails with the KeyError naming `"aqts-x"`, even though
another url was still waiting in the listing. -/
theorem create_sqs_widgets_missing_title_witness :
    1 ≤ 1 ∧
      (is_iow_queue_filter demoTags "https://h/aqts-x-TEST" "TEST" "us-west-2").1 = true ∧
      (fun _ : String => (none : Option String))
          (tier_agnostic_name (queue_name_of "https://h/aqts-x-TEST") "TEST") = none ∧
      create_sqs_widgets (fun _ => none) demoTags
          (pagesApi [["https://h/aqts-x-TEST", "https://h/aqts-y-TEST"]]) 1
          "us-west-2" "TEST" ⟨0, 0, 3, 3, 12⟩ =
        .error (.keyError (tier_agnostic_name (queue_name_of "https://h/aqts-x-TEST") "TEST")) :=
  ⟨by decide, by decide, by decide,
    create_sqs_widgets_missing_title (fun _ => none) demoTags "us-west-2" "TEST"
      "https://h/aqts-x-TEST" ["https://h/aqts-y-TEST"] ⟨0, 0, 3, 3, 12⟩ 1
      (by decide) (by decide) (by decide)⟩

/-- C9 counterexample: an identifier with no path separator does not make
name derivation fail — there is no `FormatError` anywhere in the code.  The
call succeeds, silently using the entire identifier as the queue name (the
split returns the whole string as its only part). -/
theorem no_separator_no_failure :
    queue_name_of "aqts-capture-error-queue-TEST" = "aqts-capture-error-queue-TEST" ∧
      create_sqs_widgets demoTitles demoTags
          (pagesApi [["aqts-capture-error-queue-TEST"]]) 1
          "us-west-2" "TEST" ⟨0, 0, 3, 3, 12⟩ =
        .ok
          ([{ type := "metric", x := 0, y := 0, height := 6, width := 12,
              properties :=
                { metrics := sqs_widget_metrics "aqts-capture-error-queue-TEST",
                  view := "timeSeries", stacked := false, region := "us-west-2",
                  period := 60, title := "Error Queue", stat := "Average" } }],
            ⟨0, 3, 12, 3, 12⟩) :=
  ⟨rfl, rfl⟩

/-- C9 (amended): for an identifier containing no path separator, the
split yields the whole identifier as its only part, so the derived name is
the entire identifier and no error is raised. -/
theorem queue_name_no_separator (queue_url : String) (h : '/' ∉ queue_url.data) :
    queue_name_of queue_url = queue_url := by
  unfold queue_name_of
  rw [splitOnChar_not_mem '/' queue_url.data h]
  rfl

/-- Witness for C9 (amended). -/
theorem queue_name_no_separator_witness :
    '/' ∉ ("abc" : String).data ∧ queue_name_of "abc" = "abc" :=
  ⟨by decide, queue_name_no_separator "abc" (by decide)⟩

/-- C10: when the first (and only) page of the listing carries neither an
identifier collection nor a continuation token — as for a region with zero
queues — `get_all_sqs_queue_urls` returns a dict without the `'QueueUrls'`
key, and `create_sqs_widgets` then fails with `KeyError('QueueUrls')` at
its first access instead of returning an empty widget list. -/
theorem create_sqs_widgets_empty_listing (sqs_queues : String → Option String)
    (list_queue_tags : String → Option (List (String × String)))
    (region deploy_stage : String) (p : Positioning) (fuel : Nat) (hfuel : 1 ≤ fuel) :
    get_all_sqs_queue_urls (pagesApi []) fuel = .ok ⟨none, none⟩ ∧
      create_sqs_widgets sqs_queues list_queue_tags (pagesApi []) fuel
          region deploy_stage p =
        .error (.keyError "QueueUrls") := by
  obtain ⟨f, rfl⟩ : ∃ f, fuel = f + 1 := ⟨fuel - 1, by omega⟩
  have hget : get_all_sqs_queue_urls (pagesApi []) (f + 1) = .ok ⟨none, none⟩ := by
    simp [get_all_sqs_queue_urls, listQueuesLoop, pagesApi, pageResponse, dictUpdate]
  exact ⟨hget, by simp [create_sqs_widgets, hget]⟩

/-- Witness for C10. -/
theorem create_sqs_widgets_empty_listing_witness :
    1 ≤ 1 ∧
      (get_all_sqs_queue_urls (pagesApi []) 1 = .ok ⟨none, none⟩ ∧
        create_sqs_widgets demoTitles demoTags (pagesApi []) 1
            "us-west-2" "TEST" ⟨0, 0, 3, 3, 12⟩ =
          .error (.keyError "QueueUrls")) :=
  ⟨by decide,
    create_sqs_widgets_empty_listing demoTitles demoTags "us-west-2" "TEST"
      ⟨0, 0, 3, 3, 12⟩ 1 (by decide)⟩

end AqtsDashboard
